import Mathlib

/-!
Shallow embedding of the provider-abstraction core of a multi-backend
secrets-manager CLI: the configuration model (configuration.py), the
provider-management commands (nsm.py), and the project-name resolution
and secret-deletion logic of the backend adapters (bitwarden_client.py,
google_secrets_manager.py, passbolt_client.py).

External effects (the `bws`, `gcloud` and `passbolt` executables, the
keychain, the file system) are modelled by explicit backend records and
environment parameters; JSON text encoding is modelled by a structured
`Json` value, since the textual round trip is performed by the external
`json` module.
-/

namespace Nsm

/-- Python truthiness of an optional string: `None` and `""` are falsy
(this is how `if not x:` behaves on an `Optional[str]`). -/
def optTruthy : Option String → Bool
  | none => false
  | some s => s != ""

/-- Association-list lookup, modelling Python dict indexing and the
`k in d` membership test (keys of a Python dict are unique). -/
def alookup {α : Type} (l : List (String × α)) (k : String) : Option α :=
  (l.find? (fun kv => kv.1 == k)).map (fun kv => kv.2)

/-- Association-list upsert, modelling Python dict assignment `d[k] = v`
(an existing key keeps its position, a new key is appended). -/
def aupsert {α : Type} (l : List (String × α)) (k : String) (v : α) :
    List (String × α) :=
  if l.any (fun kv => kv.1 == k) then
    l.map (fun kv => if kv.1 == k then (k, v) else kv)
  else l ++ [(k, v)]

/-- The `ProviderConfig` dataclass of configuration.py. -/
structure ProviderConfig where
  type : String
  org : Option String
  project_id : Option String
  server : Option String
  private_key_file : Option String
  organization_root_folder : Option String
deriving DecidableEq

/-- The `Configuration` dataclass of configuration.py; the
insertion-ordered Python dict `providers` is an association list. -/
structure Configuration where
  providers : List (String × ProviderConfig)
  current_provider : Option String
deriving DecidableEq

/-- `Configuration.add_provider` of configuration.py: upsert an entry. -/
def Configuration.addProvider (cfg : Configuration) (name ptype : String)
    (org project_id server private_key_file organization_root_folder :
      Option String) : Configuration :=
  { cfg with
    providers := aupsert cfg.providers name
      ⟨ptype, org, project_id, server, private_key_file,
        organization_root_folder⟩ }

/-- `Configuration.get_current_provider` of configuration.py: `None` when
`current_provider` is falsy or names no entry of `providers`. -/
def Configuration.getCurrentProvider (cfg : Configuration) :
    Option ProviderConfig :=
  match cfg.current_provider with
  | none => none
  | some cp => if cp == "" then none else alookup cfg.providers cp

/-- `Configuration.remove_all_providers` of configuration.py. -/
def Configuration.removeAllProviders (_cfg : Configuration) : Configuration :=
  ⟨[], none⟩

/-! ### JSON serialization (Configuration.save / Configuration.load) -/

/-- Structured JSON values, as produced and consumed by the `json`
collaborator module (only the shapes the configuration document uses). -/
inductive Json where
  | null : Json
  | str : String → Json
  | obj : List (String × Json) → Json

/-- An optional string serialized by `json.dump` (`None` becomes `null`). -/
def optStrJson : Option String → Json
  | none => Json.null
  | some s => Json.str s

/-- Field lookup in a JSON object, modelling Python dict access on the
parsed document. -/
def jField (fields : List (String × Json)) (k : String) : Option Json :=
  (fields.find? (fun kv => kv.1 == k)).map (fun kv => kv.2)

/-- Reading an optional-string dataclass field from keyword arguments: an
absent key takes the default `None`, `null` gives `None`, a string gives
the string, anything else is not an optional string. -/
def jOptStr : Option Json → Option (Option String)
  | none => some none
  | some Json.null => some none
  | some (Json.str s) => some (some s)
  | some (Json.obj _) => none

/-- `vars(config)` of a `ProviderConfig` as serialized by
`Configuration.save`: all six fields, in dataclass field order. -/
def ProviderConfig.toJson (p : ProviderConfig) : Json :=
  Json.obj
    [("type", Json.str p.type),
     ("org", optStrJson p.org),
     ("project_id", optStrJson p.project_id),
     ("server", optStrJson p.server),
     ("private_key_file", optStrJson p.private_key_file),
     ("organization_root_folder", optStrJson p.organization_root_folder)]

/-- `ProviderConfig(**config)` of `Configuration.load`: keyword
construction from a JSON object; unknown keys raise `TypeError`, a
missing optional key takes its `None` default, `type` is required. -/
def ProviderConfig.fromJson : Json → Option ProviderConfig
  | Json.obj fields =>
    if fields.all (fun kv =>
        (["type", "org", "project_id", "server", "private_key_file",
          "organization_root_folder"]).contains kv.1) then
      match jField fields "type" with
      | some (Json.str t) =>
        match jOptStr (jField fields "org"),
              jOptStr (jField fields "project_id"),
              jOptStr (jField fields "server"),
              jOptStr (jField fields "private_key_file"),
              jOptStr (jField fields "organization_root_folder") with
        | some org, some pid, some srv, some pkf, some orf =>
          some ⟨t, org, pid, srv, pkf, orf⟩
        | _, _, _, _, _ => none
      | _ => none
    else none
  | _ => none

/-- `Configuration.save` of configuration.py: the JSON document written to
disk (providers as an object of `vars(config)`, plus `current_provider`). -/
def Configuration.toJson (c : Configuration) : Json :=
  Json.obj
    [("providers",
      Json.obj (c.providers.map (fun kv => (kv.1, kv.2.toJson)))),
     ("current_provider", optStrJson c.current_provider)]

/-- The provider-dict conversion of `Configuration.load`: each value must
be keyword-constructible as a `ProviderConfig`. -/
def providersFromJson : List (String × Json) →
    Option (List (String × ProviderConfig))
  | [] => some []
  | (k, j) :: rest =>
    match ProviderConfig.fromJson j, providersFromJson rest with
    | some pc, some ps => some ((k, pc) :: ps)
    | _, _ => none

/-- `Configuration.load` of configuration.py applied to a parsed document:
`cls(**data)` after converting the providers dict; unknown keys raise
`TypeError`, missing keys take the dataclass defaults. -/
def Configuration.fromJson : Json → Option Configuration
  | Json.obj fields =>
    if fields.all (fun kv =>
        (["providers", "current_provider"]).contains kv.1) then
      match
        (match jField fields "providers" with
         | none => some []
         | some (Json.obj l) => providersFromJson l
         | some _ => none),
        jOptStr (jField fields "current_provider") with
      | some ps, some cur => some ⟨ps, cur⟩
      | _, _ => none
    else none
  | _ => none

/-! ### Provider management commands (nsm.py) -/

/-- Outcome of one CLI command: the configuration afterwards, whether the
configuration file was saved, and the process exit code (`sys.exit(1)`
paths give 1, a completed command gives 0). -/
structure CmdResult where
  config : Configuration
  saved : Bool
  exitCode : Nat
deriving DecidableEq

/-- External inputs of `ProviderCommands.add` for the passbolt branch: the
`PASSPHRASE` environment variable, the interactively prompted passphrase,
and whether the external `passbolt configure` subprocess succeeds. -/
structure ExtEnv where
  envPassphrase : Option String
  promptedPassphrase : String
  passboltConfigureOk : Bool

/-- The passphrase the passbolt branch of `ProviderCommands.add` ends up
using: the `PASSPHRASE` environment variable when truthy, otherwise the
interactively prompted value. -/
def effectivePassphrase (env : ExtEnv) : String :=
  if optTruthy env.envPassphrase then env.envPassphrase.getD ""
  else env.promptedPassphrase

/-- The per-backend branch of `ProviderCommands.add` (nsm.py): the
configuration after `Configuration.add_provider`, or `none` when the
command exits before mutating anything (missing passbolt arguments, empty
passphrase, failed `passbolt configure`). -/
def addBranch (env : ExtEnv) (cfg : Configuration) (name provider : String)
    (server private_key_file organization_root_folder : Option String) :
    Option Configuration :=
  if provider == "bitwarden" then
    some (cfg.addProvider name provider (some name) none none none none)
  else if provider == "google" then
    some (cfg.addProvider name provider none none none none none)
  else
    if !optTruthy server || !optTruthy private_key_file then none
    else if effectivePassphrase env == "" then none
    else if !env.passboltConfigureOk then none
    else
      some (cfg.addProvider name provider none none server
        private_key_file organization_root_folder)

/-- The validation and mutation part of `ProviderCommands.add` (nsm.py):
`none` when the command exits before mutating anything (unknown provider
type, duplicate google provider, or a passbolt branch failure), otherwise
the configuration after `Configuration.add_provider`. -/
def providerAddCore (env : ExtEnv) (cfg : Configuration)
    (name provider : String)
    (server private_key_file organization_root_folder : Option String) :
    Option Configuration :=
  if !(provider == "bitwarden" || provider == "google" ||
      provider == "passbolt") then
    none
  else if provider == "google" &&
      cfg.providers.any (fun kv => kv.2.type == "google") then
    none
  else
    addBranch env cfg name provider server private_key_file
      organization_root_folder

/-- `ProviderCommands.add` (nsm.py): validate the provider type, enforce
the single-google rule, run the per-backend branch, make the new name
current when no current provider is set, and save. -/
def providerAdd (env : ExtEnv) (cfg : Configuration) (name provider : String)
    (server private_key_file organization_root_folder : Option String) :
    CmdResult :=
  match providerAddCore env cfg name provider server private_key_file
      organization_root_folder with
  | none => ⟨cfg, false, 1⟩
  | some cfg1 =>
    ⟨if optTruthy cfg1.current_provider then cfg1
      else { cfg1 with current_provider := some name }, true, 0⟩

/-- `ProviderCommands.use` (nsm.py): fail when the name is unknown,
otherwise make it current and save. -/
def providerUse (cfg : Configuration) (name : String) : CmdResult :=
  if (alookup cfg.providers name).isNone then ⟨cfg, false, 1⟩
  else ⟨{ cfg with current_provider := some name }, true, 0⟩

/-- `ProviderCommands.remove` (nsm.py): fail when the name is unknown,
otherwise clear `current_provider` when it equals the name, delete the
entry, and save. -/
def providerRemove (cfg : Configuration) (name : String) : CmdResult :=
  if (alookup cfg.providers name).isNone then ⟨cfg, false, 1⟩
  else
    ⟨{ providers := cfg.providers.filter (fun kv => !(kv.1 == name)),
       current_provider :=
         if cfg.current_provider == some name then none
         else cfg.current_provider }, true, 0⟩

/-! ### Provider registry (BaseManager._initialize_client, nsm.py) -/

/-- A constructed backend adapter, carrying exactly the constructor
arguments the registry passes. -/
inductive Client where
  | bitwarden (org : String) : Client
  | google : Client
  | passbolt (organization_root_folder : Option String) : Client
deriving DecidableEq

/-- `BaseManager._initialize_client` (nsm.py): no adapter when
`get_current_provider` yields nothing (or the stored type is unknown). -/
def initializeClient (cfg : Configuration) : Option Client :=
  match cfg.getCurrentProvider with
  | none => none
  | some pc =>
    if pc.type == "bitwarden" then
      some (Client.bitwarden (cfg.current_provider.getD ""))
    else if pc.type == "google" then some Client.google
    else if pc.type == "passbolt" then
      some (Client.passbolt pc.organization_root_folder)
    else none

/-- The `require_provider` guard (nsm.py): a provider-scoped command runs
with the constructed adapter, or exits with status 1 when none exists. -/
def requireProvider (cfg : Configuration) : Except Nat Client :=
  match initializeClient cfg with
  | none => Except.error 1
  | some c => Except.ok c

/-! ### Bitwarden adapter (bitwarden_client.py) -/

/-- The `Project` dataclass of secrets_manager.py. -/
structure Project where
  name : String
  id : String
  organization_id : Option String
deriving DecidableEq

/-- `str.count("-")` of Python: number of hyphen characters. -/
def hyphenCount (s : String) : Nat :=
  s.toList.count '-'

/-- `BitwardenClient._resolve_project_id`: the id of the first project in
the adapter's `list_projects()` result whose name equals the candidate,
`None` when no name matches. -/
def resolveProjectId (projects : List Project) (project_name : String) :
    Option String :=
  (projects.find? (fun p => p.name == project_name)).map (fun p => p.id)

/-- The project-reference handling of `BitwardenClient.list_secrets` (the
identical logic guards `get_secret`): a truthy reference with exactly four
hyphens is used unchanged, any other truthy reference is resolved through
`_resolve_project_id` and an unresolved one raises; a falsy reference
(`None` or `""`) leaves the listing unfiltered. The result is the filter
actually passed to the backend command. -/
def listSecretsFilter (projects : List Project)
    (project_id : Option String) : Except String (Option String) :=
  match project_id with
  | none => Except.ok none
  | some pid =>
    if pid == "" then Except.ok none
    else if hyphenCount pid == 4 then Except.ok (some pid)
    else
      match resolveProjectId projects pid with
      | some rid => Except.ok (some rid)
      | none => Except.error ("Project " ++ pid ++ " not found")

/-- The Bitwarden backend as the adapter observes it: the key/value pairs
of the unfiltered secret listing, and whether `bws secret delete` succeeds
for a given name. -/
structure BwBackend where
  secrets : List (String × String)
  deleteOk : String → Bool

/-- `BitwardenClient.get_secret` with no project filter: the value of the
first listed secret whose key equals the name. -/
def BwBackend.getSecret (b : BwBackend) (name : String) : Option String :=
  (b.secrets.find? (fun kv => kv.1 == name)).map (fun kv => kv.2)

/-- `BitwardenClient.delete_secret`: `False` when `get_secret` is falsy
(absent, or present with empty value), otherwise attempt the deletion and
raise when the backend rejects it. -/
def BwBackend.deleteSecret (b : BwBackend) (name : String) :
    Except String Bool :=
  match b.getSecret name with
  | none => Except.ok false
  | some v =>
    if v == "" then Except.ok false
    else if b.deleteOk name then Except.ok true
    else Except.error ("Failed to delete secret " ++ name)

/-! ### Google adapter (google_secrets_manager.py) -/

/-- The Google backend as the adapter observes it: which secret names
exist, and whether the backend permits deleting a given name. -/
structure GBackend where
  secrets : List String
  deleteAllowed : String → Bool

/-- `GoogleSecretsManager.delete_secret`: `gcloud secrets delete` succeeds
exactly when the secret exists and the backend permits the deletion; any
`CalledProcessError` is swallowed and reported as `False`. The adapter
never raises from this method. -/
def GBackend.deleteSecret (b : GBackend) (name : String) :
    Except String Bool :=
  Except.ok (b.secrets.contains name && b.deleteAllowed name)

/-! ### Passbolt adapter (passbolt_client.py) -/

/-- One resource row of the passbolt CLI `list resource` output. -/
structure PbEntry where
  id : String
  name : String
  folder_id : Option String
deriving DecidableEq

/-- One object of the passbolt CLI `get resource <id> --json` output; the
`password` field may be absent. -/
structure PbFetch where
  password : Option String
deriving DecidableEq

/-- The Passbolt backend as the adapter observes it: the resource listing,
and the data returned by `get resource` for a given resource id. -/
structure PbBackend where
  resources : List PbEntry
  fetch : String → List PbFetch

/-- The resource filter of `PassboltClient.get_secret`: name equality,
conjoined with folder equality when a truthy `project_id` is given. -/
def pbMatches (name : String) (project_id : Option String)
    (r : PbEntry) : Bool :=
  if optTruthy project_id then
    r.name == name && r.folder_id == project_id
  else r.name == name

/-- `PassboltClient.get_secret`: `None` when no resource matches or the
follow-up fetch returns no data; otherwise
`secret_data[0].get("password", "")`. -/
def PbBackend.getSecret (b : PbBackend) (name : String)
    (project_id : Option String) : Option String :=
  match b.resources.filter (pbMatches name project_id) with
  | [] => none
  | r :: _ =>
    match b.fetch r.id with
    | [] => none
    | d :: _ => some (d.password.getD "")

/-! ### Round-trip lemmas -/

theorem jOptStr_optStrJson (o : Option String) :
    jOptStr (some (optStrJson o)) = some o := by
  cases o <;> rfl

theorem providerConfig_roundtrip (p : ProviderConfig) :
    ProviderConfig.fromJson p.toJson = some p := by
  cases p with
  | mk t org pid srv pkf orf =>
    cases org <;> cases pid <;> cases srv <;> cases pkf <;> cases orf <;> rfl

theorem providersFromJson_roundtrip (l : List (String × ProviderConfig)) :
    providersFromJson (l.map (fun kv => (kv.1, kv.2.toJson))) = some l := by
  induction l with
  | nil => rfl
  | cons kv rest ih =>
    simp [providersFromJson, providerConfig_roundtrip, ih]

/-- Claim C3: saving any `Configuration` and loading the saved document
yields a configuration structurally equal to the original, field for
field, including optional fields left `None`. -/
theorem C3_save_load_roundtrip (c : Configuration) :
    Configuration.fromJson c.toJson = some c := by
  cases c with
  | mk provs cur =>
    cases cur <;>
      simp [Configuration.toJson, Configuration.fromJson, jField,
        optStrJson, jOptStr, providersFromJson_roundtrip]

/-! ### Association-list lemmas -/

theorem alookup_cons {α : Type} (kv : String × α) (l : List (String × α))
    (k : String) :
    alookup (kv :: l) k = if kv.1 == k then some kv.2 else alookup l k := by
  cases h : (kv.1 == k) with
  | false => simp [alookup, List.find?_cons, h]
  | true => simp [alookup, List.find?_cons, h]

theorem alookup_map_upsert {α : Type} (l : List (String × α)) (k : String)
    (v : α) (h : l.any (fun kv => kv.1 == k) = true) :
    alookup (l.map (fun kv => if kv.1 == k then (k, v) else kv)) k
      = some v := by
  induction l with
  | nil => simp at h
  | cons a t ih =>
    cases ha : (a.1 == k) with
    | true =>
      have ha' : a.1 = k := by simpa using ha
      simp [List.map_cons, alookup_cons, ha']
    | false =>
      have ha' : ¬ a.1 = k := by simpa using ha
      have h' : t.any (fun kv => kv.1 == k) = true := by
        simp [List.any_cons, ha] at h
        simpa using h
      simp [List.map_cons, alookup_cons, ha']
      simpa using ih h'

theorem alookup_append_single {α : Type} (l : List (String × α)) (k : String)
    (v : α) (h : l.any (fun kv => kv.1 == k) = false) :
    alookup (l ++ [(k, v)]) k = some v := by
  induction l with
  | nil => simp [alookup, List.find?_cons]
  | cons a t ih =>
    simp only [List.any_cons, Bool.or_eq_false_iff] at h
    simp [List.cons_append, alookup_cons, h.1, ih h.2]

theorem alookup_upsert_self {α : Type} (l : List (String × α)) (k : String)
    (v : α) : alookup (aupsert l k v) k = some v := by
  unfold aupsert
  cases h : l.any (fun kv => kv.1 == k) with
  | true => simpa [h] using alookup_map_upsert l k v h
  | false => simpa [h] using alookup_append_single l k v h

theorem alookup_filter_self {α : Type} (l : List (String × α)) (k : String) :
    alookup (l.filter (fun kv => !(kv.1 == k))) k = none := by
  induction l with
  | nil => rfl
  | cons a t ih =>
    cases ha : (a.1 == k) with
    | true => simp [List.filter_cons, ha, ih]
    | false => simp [List.filter_cons, ha, alookup_cons, ih]

theorem alookup_filter_ne {α : Type} (l : List (String × α)) (k k' : String)
    (hne : k' ≠ k) :
    alookup (l.filter (fun kv => !(kv.1 == k))) k' = alookup l k' := by
  induction l with
  | nil => rfl
  | cons a t ih =>
    cases ha : (a.1 == k) with
    | true =>
      have h1 : a.1 = k := by simpa using ha
      have h2 : (a.1 == k') = false := by
        simp [h1]
        exact fun hh => hne hh.symm
      simp [List.filter_cons, ha, alookup_cons, h2, ih]
    | false => simp [List.filter_cons, ha, alookup_cons, ih]

/-! ### Claims about the provider-management commands -/

/-- Claim C4: removing a provider that exists deletes exactly that entry,
leaves every other entry unchanged, clears `current_provider` when it
named the removed provider and preserves it otherwise, and succeeds. -/
theorem C4_remove_provider_frame (cfg : Configuration) (name : String)
    (h : (alookup cfg.providers name).isSome = true) :
    (providerRemove cfg name).exitCode = 0
    ∧ alookup (providerRemove cfg name).config.providers name = none
    ∧ (∀ k, k ≠ name →
        alookup (providerRemove cfg name).config.providers k
          = alookup cfg.providers k)
    ∧ (cfg.current_provider = some name →
        (providerRemove cfg name).config.current_provider = none)
    ∧ (cfg.current_provider ≠ some name →
        (providerRemove cfg name).config.current_provider
          = cfg.current_provider) := by
  have hn : (alookup cfg.providers name).isNone = false := by
    cases hl : alookup cfg.providers name with
    | none => rw [hl] at h; simp at h
    | some pc => rfl
  unfold providerRemove
  rw [hn]
  refine ⟨rfl, alookup_filter_self _ _, fun k hk => alookup_filter_ne _ _ _ hk,
    ?_, ?_⟩
  · intro hc
    simp [hc]
  · intro hc
    have : (cfg.current_provider == some name) = false := by
      simpa using hc
    simp [this]

def cfgC4 : Configuration :=
  ⟨[("a", ⟨"bitwarden", some "a", none, none, none, none⟩),
    ("b", ⟨"bitwarden", some "b", none, none, none, none⟩)], some "a"⟩

theorem C4_remove_provider_frame_witness :
    (providerRemove cfgC4 "a").exitCode = 0
    ∧ alookup (providerRemove cfgC4 "a").config.providers "a" = none
    ∧ alookup (providerRemove cfgC4 "a").config.providers "b"
        = alookup cfgC4.providers "b"
    ∧ (providerRemove cfgC4 "a").config.current_provider = none :=
  ⟨(C4_remove_provider_frame cfgC4 "a" (by decide)).1,
   (C4_remove_provider_frame cfgC4 "a" (by decide)).2.1,
   (C4_remove_provider_frame cfgC4 "a" (by decide)).2.2.1 "b" (by decide),
   (C4_remove_provider_frame cfgC4 "a" (by decide)).2.2.2.1 rfl⟩

/-- Claim C5: `use` on an unknown name exits 1 with the configuration
untouched and nothing saved; on a known name it makes that name current
and succeeds with the providers unchanged. -/
theorem C5_use_provider (cfg : Configuration) (name : String) :
    (alookup cfg.providers name = none →
      providerUse cfg name = ⟨cfg, false, 1⟩)
    ∧ ((alookup cfg.providers name).isSome = true →
      (providerUse cfg name).config.current_provider = some name
      ∧ (providerUse cfg name).config.providers = cfg.providers
      ∧ (providerUse cfg name).saved = true
      ∧ (providerUse cfg name).exitCode = 0) := by
  constructor
  · intro h
    unfold providerUse
    rw [h]
    rfl
  · intro h
    have hn : (alookup cfg.providers name).isNone = false := by
      cases hl : alookup cfg.providers name with
      | none => rw [hl] at h; simp at h
      | some pc => rfl
    unfold providerUse
    rw [hn]
    exact ⟨rfl, rfl, rfl, rfl⟩

def cfgC5 : Configuration :=
  ⟨[("work", ⟨"bitwarden", some "work", none, none, none, none⟩)],
    some "work"⟩

theorem C5_use_provider_witness :
    providerUse cfgC5 "nonexistent" = ⟨cfgC5, false, 1⟩
    ∧ (providerUse cfgC5 "work").config.current_provider = some "work" :=
  ⟨(C5_use_provider cfgC5 "nonexistent").1 rfl,
   ((C5_use_provider cfgC5 "work").2 (by decide)).1⟩

/-- Claim C2: when some provider of type google already exists, adding
another google provider fails with exit 1, leaves the configuration
unchanged, saves nothing, and consults no external input, regardless of
either instance's name. -/
theorem C2_google_singleton (cfg : Configuration) (name : String)
    (server private_key_file organization_root_folder : Option String)
    (h : cfg.providers.any (fun kv => kv.2.type == "google") = true) :
    ∀ env : ExtEnv,
      providerAdd env cfg name "google" server private_key_file
        organization_root_folder = ⟨cfg, false, 1⟩ := by
  intro env
  have hcore : providerAddCore env cfg name "google" server private_key_file
      organization_root_folder = none := by
    unfold providerAddCore
    simp [h]
  unfold providerAdd
  rw [hcore]

def cfgC2 : Configuration :=
  ⟨[("mygoog", ⟨"google", none, none, none, none, none⟩)], some "mygoog"⟩

theorem C2_google_singleton_witness :
    providerAdd ⟨none, "", true⟩ cfgC2 "other" "google" none none none
      = ⟨cfgC2, false, 1⟩ :=
  C2_google_singleton cfgC2 "other" none none none (by decide) ⟨none, "", true⟩

theorem addBranch_current (env : ExtEnv) (cfg : Configuration)
    (name provider : String)
    (server private_key_file organization_root_folder : Option String)
    (cfg1 : Configuration)
    (h : addBranch env cfg name provider server private_key_file
      organization_root_folder = some cfg1) :
    cfg1.current_provider = cfg.current_provider := by
  unfold addBranch at h
  repeat' split at h
  all_goals cases h
  all_goals rfl

theorem providerAddCore_current (env : ExtEnv) (cfg : Configuration)
    (name provider : String)
    (server private_key_file organization_root_folder : Option String)
    (cfg1 : Configuration)
    (h : providerAddCore env cfg name provider server private_key_file
      organization_root_folder = some cfg1) :
    cfg1.current_provider = cfg.current_provider := by
  unfold providerAddCore at h
  split at h
  · cases h
  · split at h
    · cases h
    · exact addBranch_current env cfg name provider server private_key_file
        organization_root_folder cfg1 h

def envC6 : ExtEnv := ⟨none, "", true⟩

def cfgC6a : Configuration :=
  (providerAdd envC6 ⟨[], none⟩ "a" "bitwarden" none none none).config

def cfgC6b : Configuration :=
  (providerAdd envC6 cfgC6a "b" "bitwarden" none none none).config

def cfgC6c : Configuration := (providerRemove cfgC6b "a").config

/-- Claim C6, counterexample: after add "a", add "b", remove "a" the
providers map is non-empty and no current provider is set; adding "c"
then makes "c" current although the map was not empty beforehand, so the
newly added name becoming current is not equivalent to the map having
been empty. -/
theorem C6_first_provider_cex :
    cfgC6c.providers ≠ []
    ∧ cfgC6c.current_provider = none
    ∧ (providerAdd envC6 cfgC6c "c" "bitwarden" none none none).config.current_provider
        = some "c" := by
  refine ⟨by decide, by decide, by decide⟩

/-- Claim C6, amended: for every add command that completes successfully,
the newly added name becomes `current_provider` exactly when no current
provider was set beforehand (`current_provider` falsy); when a current
provider was set it is left unchanged. -/
theorem C6_first_provider_amended (env : ExtEnv) (cfg : Configuration)
    (name provider : String)
    (server private_key_file organization_root_folder : Option String)
    (hok : (providerAdd env cfg name provider server private_key_file
      organization_root_folder).exitCode = 0) :
    (optTruthy cfg.current_provider = false →
      (providerAdd env cfg name provider server private_key_file
        organization_root_folder).config.current_provider = some name)
    ∧ (optTruthy cfg.current_provider = true →
      (providerAdd env cfg name provider server private_key_file
        organization_root_folder).config.current_provider
        = cfg.current_provider) := by
  cases hcore : providerAddCore env cfg name provider server
      private_key_file organization_root_folder with
  | none =>
    unfold providerAdd at hok
    rw [hcore] at hok
    simp at hok
  | some cfg1 =>
    unfold providerAdd
    rw [hcore]
    have hc : cfg1.current_provider = cfg.current_provider :=
      providerAddCore_current env cfg name provider server private_key_file
        organization_root_folder cfg1 hcore
    constructor
    · intro hf
      simp [hc, hf]
    · intro ht
      simp [hc, ht]

theorem C6_first_provider_amended_witness :
    (providerAdd envC6 ⟨[], none⟩ "work" "bitwarden" none none
      none).config.current_provider = some "work" :=
  (C6_first_provider_amended envC6 ⟨[], none⟩ "work" "bitwarden" none none
    none (by decide)).1 rfl

/-- Claim C9: a successful add of a bitwarden provider stores a
`ProviderConfig` whose `org` equals the instance name and whose
`project_id`, `server`, `private_key_file` and
`organization_root_folder` are all `None`. -/
theorem C9_bitwarden_org_equals_name (env : ExtEnv) (cfg : Configuration)
    (name : String)
    (server private_key_file organization_root_folder : Option String) :
    (providerAdd env cfg name "bitwarden" server private_key_file
      organization_root_folder).exitCode = 0
    ∧ alookup (providerAdd env cfg name "bitwarden" server private_key_file
        organization_root_folder).config.providers name
      = some ⟨"bitwarden", some name, none, none, none, none⟩ := by
  have hcore : providerAddCore env cfg name "bitwarden" server
      private_key_file organization_root_folder
      = some (cfg.addProvider name "bitwarden" (some name) none none none
        none) := rfl
  have hup := alookup_upsert_self cfg.providers name
    (⟨"bitwarden", some name, none, none, none, none⟩ : ProviderConfig)
  constructor
  · unfold providerAdd
    rw [hcore]
  · have hp : (providerAdd env cfg name "bitwarden" server private_key_file
        organization_root_folder).config.providers
        = (cfg.addProvider name "bitwarden" (some name) none none none
          none).providers := by
      unfold providerAdd
      rw [hcore]
      split
      next heq => cases heq
      next cfg1 heq =>
        cases heq
        split
        · rfl
        · rfl
    rw [hp]
    simpa [Configuration.addProvider] using hup

/-- Claim C8: with `current_provider` unset or naming a key absent from
`providers`, `get_current_provider` yields nothing, the registry
constructs no adapter, the `require_provider` guard fails with exit 1,
and provider-management commands such as `use` still succeed on existing
names. -/
theorem C8_uninitialized (cfg : Configuration)
    (h : cfg.current_provider = none ∨
      ∃ cp, cfg.current_provider = some cp
        ∧ alookup cfg.providers cp = none) :
    cfg.getCurrentProvider = none
    ∧ initializeClient cfg = none
    ∧ requireProvider cfg = Except.error 1
    ∧ ∀ n, (alookup cfg.providers n).isSome = true →
        (providerUse cfg n).exitCode = 0 := by
  have hg : cfg.getCurrentProvider = none := by
    rcases h with h | ⟨cp, hcp, hl⟩
    · simp [Configuration.getCurrentProvider, h]
    · simp [Configuration.getCurrentProvider, hcp, hl]
  refine ⟨hg, ?_, ?_, ?_⟩
  · simp [initializeClient, hg]
  · simp [requireProvider, initializeClient, hg]
  · intro n hn
    have hn' : (alookup cfg.providers n).isNone = false := by
      cases hl : alookup cfg.providers n with
      | none => rw [hl] at hn; simp at hn
      | some pc => rfl
    unfold providerUse
    rw [hn']
    rfl

def cfgC8 : Configuration :=
  ⟨[("a", ⟨"bitwarden", some "a", none, none, none, none⟩)], none⟩

theorem C8_uninitialized_witness :
    cfgC8.getCurrentProvider = none
    ∧ requireProvider cfgC8 = Except.error 1
    ∧ (providerUse cfgC8 "a").exitCode = 0 :=
  ⟨(C8_uninitialized cfgC8 (Or.inl rfl)).1,
   (C8_uninitialized cfgC8 (Or.inl rfl)).2.2.1,
   (C8_uninitialized cfgC8 (Or.inl rfl)).2.2.2 "a" (by decide)⟩

/-! ### Claims about the backend adapters -/

def projC1 : List Project :=
  [⟨"alpha", "11111111-1111-1111-1111-111111111111", none⟩]

/-- Claim C1, counterexample: the empty string has no four hyphens and
matches no project name, yet the listing succeeds with no filter instead
of failing with a project-not-found error, because the code only resolves
truthy references. -/
theorem C1_resolution_cex :
    hyphenCount "" ≠ 4
    ∧ resolveProjectId projC1 "" = none
    ∧ listSecretsFilter projC1 (some "") = Except.ok none :=
  ⟨by decide, rfl, rfl⟩

/-- Claim C1, amended: for every non-empty candidate reference, exactly
four hyphens means it is used unchanged, otherwise it is resolved to the
id of the first project with that exact name, and an unresolved candidate
raises a project-not-found error instead of being treated as no filter;
resolution takes the first match in list order. -/
theorem C1_resolution_amended (projects : List Project) (pid : String)
    (h : pid ≠ "") :
    (hyphenCount pid = 4 →
      listSecretsFilter projects (some pid) = Except.ok (some pid))
    ∧ (hyphenCount pid ≠ 4 → ∀ i, resolveProjectId projects pid = some i →
        listSecretsFilter projects (some pid) = Except.ok (some i))
    ∧ (hyphenCount pid ≠ 4 → resolveProjectId projects pid = none →
        listSecretsFilter projects (some pid)
          = Except.error ("Project " ++ pid ++ " not found"))
    ∧ (∀ (p : Project) (ps : List Project),
        resolveProjectId (p :: ps) pid
          = if p.name == pid then some p.id else resolveProjectId ps pid) := by
  have hne : (pid == "") = false := by
    simpa using h
  refine ⟨?_, ?_, ?_, ?_⟩
  · intro h4
    simp [listSecretsFilter, hne, h4]
  · intro h4 i hi
    simp [listSecretsFilter, hne, h4, hi]
  · intro h4 hi
    simp [listSecretsFilter, hne, h4, hi]
  · intro p ps
    cases hp : (p.name == pid) with
    | true => simp [resolveProjectId, List.find?_cons, hp]
    | false => simp [resolveProjectId, List.find?_cons, hp]

theorem C1_resolution_amended_witness :
    listSecretsFilter projC1 (some "alpha")
      = Except.ok (some "11111111-1111-1111-1111-111111111111")
    ∧ listSecretsFilter projC1
        (some "11111111-1111-1111-1111-111111111111")
      = Except.ok (some "11111111-1111-1111-1111-111111111111")
    ∧ listSecretsFilter projC1 (some "missing")
      = Except.error ("Project " ++ "missing" ++ " not found") :=
  ⟨(C1_resolution_amended projC1 "alpha" (by decide)).2.1 (by decide)
      "11111111-1111-1111-1111-111111111111" rfl,
   (C1_resolution_amended projC1 "11111111-1111-1111-1111-111111111111"
      (by decide)).1 (by decide),
   (C1_resolution_amended projC1 "missing" (by decide)).2.2.1 (by decide)
      rfl⟩

def gbC7 : GBackend := ⟨["s"], fun _ => false⟩

/-- Claim C7, counterexample: a Google-backend secret that exists in the
listing but whose deletion the backend rejects makes `delete_secret`
return `false` — the same value as for an absent secret — instead of a
distinct error. -/
theorem C7_delete_cex :
    gbC7.secrets.contains "s" = true
    ∧ GBackend.deleteSecret gbC7 "s" = Except.ok false :=
  ⟨rfl, rfl⟩

/-- Claim C7, amended: the Bitwarden adapter returns `false` without an
error for a name absent from the listing, and raises a distinct error
when a listed secret with a truthy value is rejected by the backend; the
Google adapter never raises from `delete_secret` and reports every failed
deletion — rejection included — as `false`. -/
theorem C7_delete_amended :
    (∀ (b : BwBackend) (name : String), b.getSecret name = none →
      b.deleteSecret name = Except.ok false)
    ∧ (∀ (b : BwBackend) (name v : String), b.getSecret name = some v →
        v ≠ "" → b.deleteOk name = false →
        b.deleteSecret name
          = Except.error ("Failed to delete secret " ++ name))
    ∧ (∀ (g : GBackend) (name : String),
        g.deleteSecret name
          = Except.ok (g.secrets.contains name && g.deleteAllowed name)) := by
  refine ⟨?_, ?_, ?_⟩
  · intro b name h
    simp [BwBackend.deleteSecret, h]
  · intro b name v h hv hd
    have hv' : (v == "") = false := by
      simpa using hv
    simp [BwBackend.deleteSecret, h, hv', hd]
  · intro g name
    rfl

theorem C7_delete_amended_witness :
    BwBackend.deleteSecret ⟨[], fun _ => true⟩ "x" = Except.ok false
    ∧ BwBackend.deleteSecret ⟨[("k", "v")], fun _ => false⟩ "k"
        = Except.error ("Failed to delete secret " ++ "k") :=
  ⟨C7_delete_amended.1 ⟨[], fun _ => true⟩ "x" rfl,
   C7_delete_amended.2.1 ⟨[("k", "v")], fun _ => false⟩ "k" "v" rfl
     (by decide) rfl⟩

/-- Claim C10: the Passbolt adapter's `get_secret` yields `None` only
when no resource matches the filter or the follow-up fetch returns no
data; when a matching resource is fetched and its data has no password
field the result is the empty string, not a not-found result. -/
theorem C10_passbolt_get_secret :
    (∀ (b : PbBackend) (name : String) (project_id : Option String),
      b.getSecret name project_id = none →
        b.resources.filter (pbMatches name project_id) = []
        ∨ ∃ r rest,
            b.resources.filter (pbMatches name project_id) = r :: rest
            ∧ b.fetch r.id = [])
    ∧ (∀ (b : PbBackend) (name : String) (project_id : Option String)
        (r : PbEntry) (rest : List PbEntry) (d : PbFetch)
        (ds : List PbFetch),
        b.resources.filter (pbMatches name project_id) = r :: rest →
        b.fetch r.id = d :: ds → d.password = none →
        b.getSecret name project_id = some "") := by
  constructor
  · intro b name pid h
    unfold PbBackend.getSecret at h
    cases hf : b.resources.filter (pbMatches name pid) with
    | nil => exact Or.inl rfl
    | cons r rest =>
      rw [hf] at h
      have h' : (match b.fetch r.id with
          | [] => none
          | d :: _ => some (d.password.getD "")) = (none : Option String) := h
      cases hd : b.fetch r.id with
      | nil => exact Or.inr ⟨r, rest, rfl, hd⟩
      | cons d ds =>
        rw [hd] at h'
        simp at h'
  · intro b name pid r rest d ds h1 h2 h3
    simp [PbBackend.getSecret, h1, h2, h3]

def pbC10 : PbBackend :=
  ⟨[⟨"rid", "nm", none⟩], fun i => if i == "rid" then [⟨none⟩] else []⟩

theorem C10_passbolt_get_secret_witness :
    PbBackend.getSecret pbC10 "nm" none = some ""
    ∧ (PbBackend.getSecret (⟨[], fun _ => []⟩ : PbBackend) "x" none = none →
        (List.filter (pbMatches "x" none) [] = []
        ∨ ∃ r rest, List.filter (pbMatches "x" none) [] = r :: rest
            ∧ ([] : List PbFetch) = [])) :=
  ⟨C10_passbolt_get_secret.2 pbC10 "nm" none ⟨"rid", "nm", none⟩ []
     ⟨none⟩ [] rfl rfl rfl,
   fun h => C10_passbolt_get_secret.1 ⟨[], fun _ => []⟩ "x" none h⟩

end Nsm
